import Mathlib

/-!
Verification development for the group-quiz backend.

The definitions below are a shallow embedding of the Python sources:
`src/whatsapp/group_models.py`, `src/whatsapp/group_router.py` and
`src/quiz/engine/quiz_engine.py`.  Pydantic models become structures,
Python dicts (which preserve insertion order) become association lists,
and the message handlers become pure state-transition functions where
all I/O (chat transport, LLM, RAG, persistence) is abstracted into
explicit parameters.  Timestamps are omitted: no verified property
depends on them.
-/

/-- Lifecycle state of a group quiz (`GroupQuizState` in group_models.py). -/
inductive GroupQuizState where
  | IDLE
  | WAITING_START
  | ACTIVE
  | WAITING_NEXT
  | FINISHED
deriving DecidableEq, Repr

/-- One answer record (`ParticipantAnswer`); `answered_at` timestamp omitted. -/
structure ParticipantAnswer where
  user_id : String
  user_name : String
  answer_index : Nat
  is_correct : Bool
  points_earned : Nat
deriving DecidableEq, Repr

/-- Per-question state (`QuestionState`); `started_at` timestamp omitted. -/
structure QuestionState where
  question_id : Nat
  answers : List ParticipantAnswer
  hints_given : List String
deriving DecidableEq, Repr

/-- Running score of one participant (`ParticipantScore`). -/
structure ParticipantScore where
  user_id : String
  user_name : String
  total_score : Nat
  correct_answers : Nat
  total_answers : Nat
deriving DecidableEq, Repr

/-- Association-list lookup modelling Python dict access by key
(dicts preserve insertion order, so the list order is the join order). -/
def plookup (k : String) : List (String × ParticipantScore) → Option ParticipantScore
  | [] => none
  | (k2, v) :: rest => if k2 = k then some v else plookup k rest

/-- Association-list key removal modelling Python `del d[k]`
(the order of the remaining entries is preserved). -/
def perase (k : String) : List (String × ParticipantScore) → List (String × ParticipantScore)
  | [] => []
  | (k2, v) :: rest => if k2 = k then perase k rest else (k2, v) :: perase k rest

/-- Update the value stored under a key, leaving other entries alone. -/
def pupdate (k : String) (f : ParticipantScore → ParticipantScore) :
    List (String × ParticipantScore) → List (String × ParticipantScore)
  | [] => []
  | (k2, v) :: rest => if k2 = k then (k2, f v) :: rest else (k2, v) :: pupdate k f rest

/-- A group quiz session (`GroupQuizSession` in group_models.py).
`participants` is the insertion-ordered dict user_id -> score. -/
structure GroupQuizSession where
  group_id : String
  group_name : String
  state : GroupQuizState
  quiz_id : Option String
  current_question : Nat
  total_questions : Nat
  questions_history : List QuestionState
  participants : List (String × ParticipantScore)
  started_by : Option String
  current_turn_user_id : Option String
  turn_order : List String
deriving DecidableEq, Repr

namespace GroupQuizSession

/-- Constant `QUESTIONS_PER_PARTICIPANT = 3` from group_models.py. -/
def QUESTIONS_PER_PARTICIPANT : Nat := 3

/-- Constant `MAX_QUESTIONS = 30` from group_models.py. -/
def MAX_QUESTIONS : Nat := 30

/-- `get_or_create_participant`: create the record if absent (appended at the
end, as a Python dict insertion), otherwise possibly upgrade a temporary
"Novo (xxxx)" display name. -/
def get_or_create_participant (s : GroupQuizSession) (user_id user_name : String) :
    GroupQuizSession :=
  match plookup user_id s.participants with
  | none =>
      { s with participants :=
          s.participants ++ [(user_id,
            { user_id := user_id, user_name := user_name,
              total_score := 0, correct_answers := 0, total_answers := 0 })] }
  | some p =>
      if p.user_name.startsWith "Novo (" ∧ ¬ user_name.startsWith "Novo (" then
        { s with participants :=
            pupdate user_id (fun q => { q with user_name := user_name }) s.participants }
      else s

/-- `get_current_question_state`: the last entry of `questions_history`. -/
def get_current_question_state (s : GroupQuizSession) : Option QuestionState :=
  s.questions_history.getLast?

/-- `add_answer`: append the answer to the current question's record (when one
exists) and update the sender's running score. -/
def add_answer (s : GroupQuizSession) (user_id user_name : String)
    (answer_index : Nat) (is_correct : Bool) (points : Nat) : GroupQuizSession :=
  let ans : ParticipantAnswer :=
    { user_id := user_id, user_name := user_name, answer_index := answer_index,
      is_correct := is_correct,
      points_earned := if is_correct then points else 0 }
  let s1 :=
    match s.questions_history.getLast? with
    | none => s
    | some last =>
        { s with questions_history :=
            s.questions_history.dropLast ++ [{ last with answers := last.answers ++ [ans] }] }
  let s2 := s1.get_or_create_participant user_id user_name
  { s2 with participants :=
      (pupdate user_id
        (fun p =>
          let p1 := { p with total_answers := p.total_answers + 1 }
          if is_correct then
            { p1 with correct_answers := p1.correct_answers + 1,
                      total_score := p1.total_score + points }
          else p1)
        s2.participants) }

/-- Sort key used by `get_ranking`: Python `(p.total_score, p.correct_answers)`. -/
def rankKey (p : ParticipantScore) : Nat × Nat := (p.total_score, p.correct_answers)

/-- The before-relation realised by Python's stable `sorted(..., reverse=True)`
with key `(total_score, correct_answers)`: `p` may come at or before `q`
exactly when its key is lexicographically greater or equal. -/
def rankGe (p q : ParticipantScore) : Prop :=
  p.total_score > q.total_score ∨
    (p.total_score = q.total_score ∧ p.correct_answers ≥ q.correct_answers)

instance : DecidableRel rankGe := fun p q => by
  unfold rankGe; infer_instance

/-- `get_ranking`: stable descending sort of the participant values by
`(total_score, correct_answers)`.  Python's sort is stable also with
`reverse=True`, which the insertion sort below reproduces: an element is
inserted after every earlier element whose key is ≥ its own. -/
def get_ranking (s : GroupQuizSession) : List ParticipantScore :=
  List.insertionSort rankGe (s.participants.map Prod.snd)

/-- `has_answered`: whether the user already has an answer record for the
current question (the Python method returns a bool). -/
def has_answered (s : GroupQuizSession) (user_id : String) : Bool :=
  match s.get_current_question_state with
  | none => false
  | some cur => decide (user_id ∈ cur.answers.map ParticipantAnswer.user_id)

/-- `start_new_question`: set `current_question` and append a fresh
`QuestionState`. -/
def start_new_question (s : GroupQuizSession) (question_id : Nat) : GroupQuizSession :=
  { s with current_question := question_id,
           questions_history := s.questions_history ++
             [{ question_id := question_id, answers := [], hints_given := [] }] }

/-- `add_bonus_questions`: raise `total_questions` by 3 per new participant,
capped at `MAX_QUESTIONS`; returns the number actually added. -/
def add_bonus_questions (s : GroupQuizSession) (num_new_participants : Nat) :
    Nat × GroupQuizSession :=
  let bonus := QUESTIONS_PER_PARTICIPANT * num_new_participants
  let new_total := min (s.total_questions + bonus) MAX_QUESTIONS
  let added := new_total - s.total_questions
  (added, { s with total_questions := new_total })

/-- `calculate_initial_questions`: `max(1, participantCount) * 3` capped at
`MAX_QUESTIONS`, stored into `total_questions`. -/
def calculate_initial_questions (s : GroupQuizSession) : GroupQuizSession :=
  let num_participants := max 1 s.participants.length
  let total := num_participants * QUESTIONS_PER_PARTICIPANT
  { s with total_questions := min total MAX_QUESTIONS }

/-- `initialize_turn_order`: turn order becomes the participant keys in join
order; the pointer becomes the first key when one exists. -/
def initialize_turn_order (s : GroupQuizSession) : GroupQuizSession :=
  let order := s.participants.map Prod.fst
  match order with
  | [] => { s with turn_order := order }
  | u :: _ => { s with turn_order := order, current_turn_user_id := some u }

/-- `is_user_turn`: the pointer equals the sender. -/
def is_user_turn (s : GroupQuizSession) (user_id : String) : Prop :=
  s.current_turn_user_id = some user_id

instance (s : GroupQuizSession) (uid : String) : Decidable (s.is_user_turn uid) := by
  unfold is_user_turn; infer_instance

/-- `advance_turn`: with an empty turn order return `none` and change nothing;
otherwise move the pointer to the cyclic successor of the current id, or to
the first element when the current id is `None` or absent (Python catches the
`ValueError`/`TypeError` of `list.index` and uses index `-1`). -/
def advance_turn (s : GroupQuizSession) : Option String × GroupQuizSession :=
  match s.turn_order with
  | [] => (none, s)
  | u :: rest =>
      let order := u :: rest
      let current_idx : Int :=
        match s.current_turn_user_id with
        | none => -1
        | some uid => if uid ∈ order then (order.indexOf uid : Int) else -1
      let next_idx : Nat := ((current_idx + 1) % (order.length : Int)).toNat
      let next := order.getD next_idx u
      (some next, { s with current_turn_user_id := some next })

/-- `get_current_turn_display`: formatted name of the pointer's participant,
`none` when the pointer is unset or the participant is no longer registered. -/
def get_current_turn_display (s : GroupQuizSession) : Option String :=
  match s.current_turn_user_id with
  | none => none
  | some uid =>
      match plookup uid s.participants with
      | none => none
      | some p =>
          let clean := (uid.splitOn "@").headD ""
          let digits := String.mk (clean.toList.filter Char.isDigit)
          let last4 :=
            if digits.length ≥ 4 then
              String.mk (digits.toList.drop (digits.length - 4))
            else digits
          some (p.user_name ++ " (" ++ last4 ++ ")")

/-- `add_participant_to_turn_order`: append the id when absent; set the
pointer to it only when the pointer is unset. -/
def add_participant_to_turn_order (s : GroupQuizSession) (user_id : String) :
    GroupQuizSession :=
  if user_id ∈ s.turn_order then s
  else
    let s1 := { s with turn_order := s.turn_order ++ [user_id] }
    match s1.current_turn_user_id with
    | none => { s1 with current_turn_user_id := some user_id }
    | some _ => s1

end GroupQuizSession

/-!
Router operations, from `src/whatsapp/group_router.py`.  Each handler is
embedded as the state transition it performs on the `GroupQuizSession`;
outbound chat messages, logging and persistence are dropped (they do not
touch the session), and external results (RAG availability, the quiz
engine, the scoring engine, question fetches) become explicit parameters.
-/

open GroupQuizSession

/-- The Evolution bot's own number, ignored by `process_group_message`. -/
def BOT_NUMBER : String := "5521936182339"

/-- The letter-to-index map of `handle_group_answer`; a letter outside A-D
raises a `KeyError` in Python, modelled as `none`. -/
def letterIndex (a : String) : Option Nat :=
  if a = "A" then some 0
  else if a = "B" then some 1
  else if a = "C" then some 2
  else if a = "D" then some 3
  else none

/-- The check-in block of `process_group_message` (lines 585-622): during an
ACTIVE quiz, a sender who is not the bot is registered on the fly when they
are not yet a participant, have a nonempty id not ending in "@g.us", and are
not the session starter; registration appends them to the turn order and
grants the capped question bonus. -/
def process_check_in (s : GroupQuizSession) (user_id user_name : String) :
    GroupQuizSession :=
  if user_id = BOT_NUMBER ∨ user_id.startsWith BOT_NUMBER then s
  else if s.state = GroupQuizState.ACTIVE ∧
      plookup user_id s.participants = none ∧
      user_id ≠ "" ∧ ¬ user_id.endsWith "@g.us" ∧
      s.started_by ≠ some user_id then
    let s1 := s.get_or_create_participant user_id user_name
    let s2 := s1.add_participant_to_turn_order user_id
    (s2.add_bonus_questions 1).2
  else s

/-- The SAIR command of `process_group_message` (lines 645-658): delete the
sender from the participant map when present; nothing else changes. -/
def sair_command (s : GroupQuizSession) (user_id : String) : GroupQuizSession :=
  if (plookup user_id s.participants).isSome then
    { s with participants := perase user_id s.participants }
  else s

/-- `_auto_remove_from_quiz` (group-leave event): outside IDLE, delete the
departed user from the participant map when present; nothing else changes. -/
def auto_remove_from_quiz (s : GroupQuizSession) (user_id : String) : GroupQuizSession :=
  if s.state = GroupQuizState.IDLE then s
  else if (plookup user_id s.participants).isSome then
    { s with participants := perase user_id s.participants }
  else s

/-- The COMECAR command of `handle_waiting_start_state`: with no joined
participant, or when the RAG check or `engine.start_quiz` fails, the session
is left unchanged (the mutated in-memory copy is never saved); otherwise
compute the initial question total, start the engine (abstracted to the
returned `quiz_id`), initialise the turn order, become ACTIVE and start
question 1. -/
def comecar_command (s : GroupQuizSession) (quiz_id : String)
    (ragOk engineOk : Bool) : GroupQuizSession :=
  if s.participants.length = 0 then s
  else if ¬ ragOk then s
  else if ¬ engineOk then s
  else
    let s1 := s.calculate_initial_questions
    let s2 := s1.initialize_turn_order
    let s3 := { s2 with quiz_id := some quiz_id, state := GroupQuizState.ACTIVE }
    s3.start_new_question 1

/-- `handle_group_answer`: the session transition for an answer letter.
`fetched` tells whether `engine.get_question` returned the current question
within its bounded wait; `is_correct` and `points` stand for the scoring
engine's verdict on the fetched question.  Out-of-turn answers only possibly
reinitialise the turn system; duplicate answers and fetch failures change
nothing; an accepted answer records the score, advances the turn, then either
finishes the quiz or moves to the next ordinal. -/
def handle_group_answer (s : GroupQuizSession) (user_id user_name answer : String)
    (fetched : Bool) (is_correct : Bool) (points : Nat) : GroupQuizSession :=
  if s.quiz_id.isNone then s
  else if ¬ s.is_user_turn user_id then
    match s.get_current_turn_display with
    | some _ => s
    | none =>
        let s1 := s.initialize_turn_order
        match s1.turn_order with
        | [] => s1
        | u :: _ => { s1 with current_turn_user_id := some u }
  else if s.has_answered user_id then s
  else if ¬ fetched then s
  else
    match letterIndex answer with
    | none => s
    | some answer_index =>
        let s1 := s.add_answer user_id user_name answer_index is_correct points
        let s2 := (s1.advance_turn).2
        if s2.current_question ≥ s2.total_questions then
          { s2 with state := GroupQuizState.FINISHED }
        else
          s2.start_new_question (s2.current_question + 1)

/-- `send_next_group_question` (the PROXIMA command): advance the turn, then
either finish the quiz or move to the next ordinal and stay/become ACTIVE.
Displaying the previous question's results does not touch the session. -/
def send_next_group_question (s : GroupQuizSession) : GroupQuizSession :=
  if s.quiz_id.isNone then s
  else
    let s1 := (s.advance_turn).2
    if s1.current_question ≥ s1.total_questions then
      { s1 with state := GroupQuizState.FINISHED }
    else
      let s2 := s1.start_new_question (s1.current_question + 1)
      { s2 with state := GroupQuizState.ACTIVE }

/-!
Question generation pipeline, from `src/quiz/engine/quiz_engine.py`.
The quiz state record (`quiz.models.state.QuizState`) and question schema
(`quiz.models.schemas`) are reconstructed from their use sites in
`quiz_engine.py` and the spec's GameState description; the LLM call, JSON
extraction and dedup engine are abstracted into explicit parameters.
-/

/-- Question difficulty tier (`QuizDifficulty`). -/
inductive QuizDifficulty where
  | easy
  | medium
  | hard
deriving DecidableEq, Repr

/-- One labelled option of a question (`QuizOption`). -/
structure QuizOption where
  label : String
  text : String
deriving DecidableEq, Repr

/-- A generated question (`QuizQuestion`). -/
structure QuizQuestion where
  id : Nat
  question : String
  options : List QuizOption
  correct_index : Nat
  difficulty : QuizDifficulty
  points : Nat
  explanation : String
  wrong_feedback : List (Nat × String)
  learning_tip : String
  source_reference : String
deriving DecidableEq, Repr

/-- The fields `_create_question_from_data` reads out of the JSON parsed from
the model output; optional fields mirror `q_data.get(...)` defaults. -/
structure QData where
  question : String
  options : List QuizOption
  correct_index : Nat
  difficultyRaw : Option String
  explanation : Option String
  wrong_feedback : List (Nat × String)
  learning_tip : Option String
  source_reference : Option String
deriving DecidableEq, Repr

/-- Per-quiz generation state (`QuizState`), reconstructed from its use in
`quiz_engine.py`: sparse ordinal-to-question map, used topics, completion
flag and optional terminal error. -/
structure QuizState where
  quiz_id : String
  context : String
  questions : List (Nat × QuizQuestion)
  previous_topics : List String
  complete : Bool
  error : Option String
deriving DecidableEq, Repr

/-- Ordinal lookup in the sparse question map. -/
def qlookup (k : Nat) : List (Nat × QuizQuestion) → Option QuizQuestion
  | [] => none
  | (k2, v) :: rest => if k2 = k then some v else qlookup k rest

namespace QuizEngine

/-- Constant `MAX_RETRIES = 1` from quiz_engine.py (retry disabled). -/
def MAX_RETRIES : Nat := 1

/-- Constant `TOTAL_QUESTIONS = 3` from quiz_engine.py. -/
def TOTAL_QUESTIONS : Nat := 3

/-- The points assigned per tier: easy 1, medium 2, hard 3. -/
def pointsFor : QuizDifficulty → Nat
  | QuizDifficulty.easy => 1
  | QuizDifficulty.medium => 2
  | QuizDifficulty.hard => 3

/-- The `difficulty_map` dict of `_create_question_from_data`. -/
def difficulty_map (raw : String) : Option QuizDifficulty :=
  if raw = "easy" then some QuizDifficulty.easy
  else if raw = "medium" then some QuizDifficulty.medium
  else if raw = "hard" then some QuizDifficulty.hard
  else if raw = "difficult" then some QuizDifficulty.hard
  else if raw = "fácil" then some QuizDifficulty.easy
  else if raw = "médio" then some QuizDifficulty.medium
  else if raw = "difícil" then some QuizDifficulty.hard
  else none

/-- `_create_question_from_data`: normalise the reported difficulty (falling
back to the requested tier), derive the point value, build the question. -/
def _create_question_from_data (index : Nat) (q_data : QData)
    (target_difficulty : QuizDifficulty) : QuizQuestion :=
  let diff :=
    match q_data.difficultyRaw with
    | none => target_difficulty
    | some raw => (difficulty_map raw.toLower).getD target_difficulty
  { id := index,
    question := q_data.question,
    options := q_data.options,
    correct_index := q_data.correct_index,
    difficulty := diff,
    points := pointsFor diff,
    explanation := q_data.explanation.getD "",
    wrong_feedback := q_data.wrong_feedback,
    learning_tip := q_data.learning_tip.getD "",
    source_reference := q_data.source_reference.getD "" }

/-- `_create_fallback_question`: the deterministic synthetic question used
when generation fails; first option (index 0) is the correct one and the
difficulty is the requested tier. -/
def _create_fallback_question (index : Nat) (difficulty : QuizDifficulty) :
    QuizQuestion :=
  { id := index,
    question := "Pergunta " ++ toString index ++ " sobre o programa Renda Extra Ton",
    options := [
      { label := "A", text := "Opção A" },
      { label := "B", text := "Opção B" },
      { label := "C", text := "Opção C" },
      { label := "D", text := "Opção D" }],
    correct_index := 0,
    difficulty := difficulty,
    points := pointsFor difficulty,
    explanation := "Erro ao gerar pergunta. Consulte o regulamento.",
    wrong_feedback := [],
    learning_tip := "",
    source_reference := "" }

/-- The retry loop of `_generate_with_retry`.  `attempts n` is the outcome of
the n-th prompt/parse round (any exception in the loop body, from the LLM
call through question construction, is the `Except.error` case); `validate`
abstracts `dedup.validate_and_get_topic`.  A topic collision (`validate`
returning false) is logged and the question is accepted anyway — the loop
body has no `continue`.  Returns the produced question and the number of
generation attempts made. -/
def generateLoop (attempts : Nat → Except String QData)
    (validate : String → List String → Bool × String)
    (index : Nat) (difficulty : QuizDifficulty) (prev_topics : List String) :
    Nat → Nat → Nat → QuizQuestion × Nat
  | 0, _, made => (_create_fallback_question index difficulty, made)
  | remaining + 1, attempt, made =>
      match attempts attempt with
      | Except.error _ =>
          generateLoop attempts validate index difficulty prev_topics
            remaining (attempt + 1) (made + 1)
      | Except.ok q_data =>
          let v := validate q_data.question prev_topics
          -- v.1 = false means a topic collision: accepted anyway (source
          -- lines 300-307 only log it, they do not retry)
          let _ := v
          (_create_question_from_data index q_data difficulty, made + 1)

/-- `_generate_with_retry`: run the loop with the budget `MAX_RETRIES`. -/
def _generate_with_retry (attempts : Nat → Except String QData)
    (validate : String → List String → Bool × String)
    (index : Nat) (difficulty : QuizDifficulty) (prev_topics : List String) :
    QuizQuestion × Nat :=
  generateLoop attempts validate index difficulty prev_topics MAX_RETRIES 0 0

/-- The polling loop of `get_question`.  `cacheAt t` is the memory-cache
entry for this quiz at the t-th half-second poll tick (the background worker
may fill it in between polls); `fuel` is the number of sleep intervals that
fit in the timeout.  Each round first returns the question when its ordinal
is present, then gives up when the timeout has elapsed, then gives up when a
terminal error is set, and otherwise sleeps and repolls. -/
def pollLoop (cacheAt : Nat → Option QuizState) (index : Nat) :
    Nat → Nat → Option QuizQuestion
  | fuel, t =>
      let stateNow := cacheAt t
      match stateNow with
      | some st =>
          match qlookup index st.questions with
          | some q => some q
          | none =>
              match fuel with
              | 0 => none
              | fuel' + 1 =>
                  if st.error.isSome then none
                  else pollLoop cacheAt index fuel' (t + 1)
      | none =>
          match fuel with
          | 0 => none
          | fuel' + 1 => pollLoop cacheAt index fuel' (t + 1)

/-- `get_question`: when the quiz is absent from the memory cache and a store
is configured, attempt exactly one reload from durable storage (`storeVal` is
its result, `none` covering both a miss and a swallowed load error), then
poll.  Returns the number of store reloads attempted together with the poll
result; `cacheAt t = none` means the worker has not (re)written the cache
entry at tick t, in which case the loop still sees the reloaded state. -/
def get_question (cacheAt : Nat → Option QuizState)
    (storeConfigured : Bool) (storeVal : Option QuizState)
    (index : Nat) (fuel : Nat) : Nat × Option QuizQuestion :=
  let c0 := cacheAt 0
  let loads := if c0.isNone ∧ storeConfigured then 1 else 0
  let reloaded := if c0.isNone ∧ storeConfigured then storeVal else c0
  let eff : Nat → Option QuizState := fun t =>
    match cacheAt t with
    | some st => some st
    | none => reloaded
  (loads, pollLoop eff index fuel 0)

end QuizEngine

/-!
Derived predicates and concrete sample data used by the theorems below.
-/

/-- The weak turn-coverage invariant: every registered participant id occurs
in `turn_order` (turn_order may additionally retain departed ids). -/
def turn_covers (s : GroupQuizSession) : Prop :=
  ∀ uid ∈ s.participants.map Prod.fst, uid ∈ s.turn_order

instance (s : GroupQuizSession) : Decidable (turn_covers s) := by
  unfold turn_covers; infer_instance

/-- Shorthand for a participant score record. -/
def mkScore (uid uname : String) (ts ca ta : Nat) : ParticipantScore :=
  { user_id := uid, user_name := uname, total_score := ts,
    correct_answers := ca, total_answers := ta }

/-- A concrete mid-game session: two participants, player "a" to move. -/
def wSession : GroupQuizSession :=
  { group_id := "g1", group_name := "Quiz Group",
    state := GroupQuizState.ACTIVE, quiz_id := some "q1",
    current_question := 1, total_questions := 6,
    questions_history := [{ question_id := 1, answers := [], hints_given := [] }],
    participants := [("a", mkScore "a" "Ana" 0 0 0), ("b", mkScore "b" "Bia" 0 0 0)],
    started_by := some "a", current_turn_user_id := some "a",
    turn_order := ["a", "b"] }

/-- A concrete active session whose starter "adm" never joined as a
participant. -/
def adminSession : GroupQuizSession :=
  { group_id := "g2", group_name := "Quiz Group",
    state := GroupQuizState.ACTIVE, quiz_id := some "q2",
    current_question := 1, total_questions := 3,
    questions_history := [{ question_id := 1, answers := [], hints_given := [] }],
    participants := [("p1", mkScore "p1" "Paula" 0 0 0)],
    started_by := some "adm", current_turn_user_id := some "p1",
    turn_order := ["p1"] }

/-- A concrete generated question (the deterministic fallback for ordinal 1). -/
def sampleQuestion : QuizQuestion :=
  QuizEngine._create_fallback_question 1 QuizDifficulty.easy

/-- A quiz generation state with ordinal 1 ready and no error. -/
def readyQuizState : QuizState :=
  { quiz_id := "q1", context := "", questions := [(1, sampleQuestion)],
    previous_topics := [], complete := false, error := none }

/-- A quiz generation state with a terminal error and no questions. -/
def errorQuizState : QuizState :=
  { quiz_id := "q1", context := "", questions := [],
    previous_topics := [], complete := false, error := some "fatal" }

/-- A concrete parsed model output for witnesses. -/
def sampleQData : QData :=
  { question := "Qual o prazo?", options := [
      { label := "A", text := "10 dias" },
      { label := "B", text := "20 dias" },
      { label := "C", text := "30 dias" },
      { label := "D", text := "40 dias" }],
    correct_index := 2, difficultyRaw := some "medium",
    explanation := some "Prazo de 30 dias.", wrong_feedback := [],
    learning_tip := none, source_reference := none }


/-- A generation-attempt environment whose every attempt fails
(malformed model output). -/
def failAttempts : Nat → Except String QData :=
  fun _ => Except.error "malformed model output"

/-- A generation-attempt environment whose every attempt parses into
`sampleQData`. -/
def okAttempts : Nat → Except String QData :=
  fun _ => Except.ok sampleQData

/-- A deduplication verdict that always reports a topic collision. -/
def collideValidate : String → List String → Bool × String :=
  fun q _ => (false, q)

/-- A cache environment that always holds `readyQuizState`. -/
def cacheReady : Nat → Option QuizState := fun _ => some readyQuizState

/-- A cache environment that always holds `errorQuizState`. -/
def cacheErr : Nat → Option QuizState := fun _ => some errorQuizState

/-- A cache environment with no entry for the quiz at any tick. -/
def cacheEmpty : Nat → Option QuizState := fun _ => none

instance : IsTotal ParticipantScore GroupQuizSession.rankGe :=
  ⟨by intro a b; unfold GroupQuizSession.rankGe; omega⟩

instance : IsTrans ParticipantScore GroupQuizSession.rankGe :=
  ⟨by intro a b c; unfold GroupQuizSession.rankGe; omega⟩


/-!
Helper lemmas about the session operations.
-/

namespace GroupQuizSession

theorem advance_turn_participants (s : GroupQuizSession) :
    (s.advance_turn).2.participants = s.participants := by
  cases h : s.turn_order <;> simp [advance_turn, h]

theorem advance_turn_turn_order (s : GroupQuizSession) :
    (s.advance_turn).2.turn_order = s.turn_order := by
  cases h : s.turn_order <;> simp [advance_turn, h]

theorem advance_turn_state (s : GroupQuizSession) :
    (s.advance_turn).2.state = s.state := by
  cases h : s.turn_order <;> simp [advance_turn, h]

theorem advance_turn_quiz_id (s : GroupQuizSession) :
    (s.advance_turn).2.quiz_id = s.quiz_id := by
  cases h : s.turn_order <;> simp [advance_turn, h]

theorem advance_turn_current_question (s : GroupQuizSession) :
    (s.advance_turn).2.current_question = s.current_question := by
  cases h : s.turn_order <;> simp [advance_turn, h]

theorem advance_turn_total_questions (s : GroupQuizSession) :
    (s.advance_turn).2.total_questions = s.total_questions := by
  cases h : s.turn_order <;> simp [advance_turn, h]

theorem advance_turn_questions_history (s : GroupQuizSession) :
    (s.advance_turn).2.questions_history = s.questions_history := by
  cases h : s.turn_order <;> simp [advance_turn, h]

theorem advance_turn_started_by (s : GroupQuizSession) :
    (s.advance_turn).2.started_by = s.started_by := by
  cases h : s.turn_order <;> simp [advance_turn, h]

theorem advance_turn_of_ne_nil (s : GroupQuizSession) (h : s.turn_order ≠ []) :
    ∃ u, (s.advance_turn).1 = some u ∧
      (s.advance_turn).2.current_turn_user_id = some u ∧ u ∈ s.turn_order := by
  cases hord : s.turn_order with
  | nil => exact absurd hord h
  | cons u rest =>
      simp only [advance_turn, hord]
      set order := u :: rest with horder
      set cidx : Int :=
        (match s.current_turn_user_id with
         | none => -1
         | some uid => if uid ∈ order then (order.indexOf uid : Int) else -1) with hcidx
      have hlenpos : (0 : Int) < (order.length : Int) := by
        simp [horder]
      have hmodlt : (cidx + 1) % (order.length : Int) < (order.length : Int) :=
        Int.emod_lt_of_pos _ hlenpos
      have hmodge : 0 ≤ (cidx + 1) % (order.length : Int) :=
        Int.emod_nonneg _ (by omega)
      have hidxlt : ((cidx + 1) % (order.length : Int)).toNat < order.length := by
        omega
      refine ⟨order.getD (((cidx + 1) % (order.length : Int)).toNat) u, ?_, ?_, ?_⟩
      · rfl
      · rfl
      · have := List.getD_eq_getElem order u hidxlt
        rw [this]
        exact List.getElem_mem _

end GroupQuizSession

/-- Claim C10: for every session with a non-empty turn_order, advance_turn
never raises (it is total) and always sets the current-turn pointer to a
member of turn_order: if the previous current-turn id is None or no longer in
turn_order it selects the first element, otherwise it selects the cyclic
successor; with an empty turn_order it returns None and changes nothing. -/
theorem advance_turn_spec_c10 (s : GroupQuizSession) :
    (s.turn_order = [] → s.advance_turn = (none, s)) ∧
    (∀ u rest, s.turn_order = u :: rest →
      ((s.current_turn_user_id = none ∨
         (∀ uid, s.current_turn_user_id = some uid → uid ∉ s.turn_order)) →
        s.advance_turn = (some u, { s with current_turn_user_id := some u }) ∧
          u ∈ s.turn_order) ∧
      (∀ uid, s.current_turn_user_id = some uid → uid ∈ s.turn_order →
        ∃ v, s.turn_order[(s.turn_order.indexOf uid + 1) % s.turn_order.length]? = some v ∧
          s.advance_turn = (some v, { s with current_turn_user_id := some v }) ∧
          v ∈ s.turn_order)) := by
  constructor
  · intro h
    simp [GroupQuizSession.advance_turn, h]
  · intro u rest hord
    constructor
    · intro hfirst
      have hcidx :
          (match s.current_turn_user_id with
           | none => (-1 : Int)
           | some uid => if uid ∈ u :: rest then ((u :: rest).indexOf uid : Int) else -1)
            = -1 := by
        rcases hfirst with hnone | habs
        · simp [hnone]
        · rcases hc : s.current_turn_user_id with _ | uid
          · simp
          · have hnm : uid ∉ u :: rest := by rw [← hord]; exact habs uid hc
            simp [hnm]
      refine ⟨?_, by rw [hord]; exact List.mem_cons_self u rest⟩
      simp only [GroupQuizSession.advance_turn, hord, hcidx]
      norm_num
    · intro uid hcur hmem
      have hmem' : uid ∈ u :: rest := by rw [← hord]; exact hmem
      have hidxlt : (u :: rest).indexOf uid < (u :: rest).length :=
        List.indexOf_lt_length.mpr hmem'
      set idx := (u :: rest).indexOf uid with hidx
      have hnextlt : (idx + 1) % (u :: rest).length < (u :: rest).length :=
        Nat.mod_lt _ (by simp)
      refine ⟨(u :: rest)[(idx + 1) % (u :: rest).length], ?_, ?_, ?_⟩
      · rw [hord]
        exact List.getElem?_eq_getElem hnextlt
      · have hcidx :
            (match s.current_turn_user_id with
             | none => (-1 : Int)
             | some w => if w ∈ u :: rest then ((u :: rest).indexOf w : Int) else -1)
              = (idx : Int) := by
          simp [hcur, hmem', hidx]
        have hcast : (((idx : Int) + 1) % ((u :: rest).length : Int)).toNat
            = (idx + 1) % (u :: rest).length := by
          have h1 : ((idx : Int) + 1) = ((idx + 1 : Nat) : Int) := by push_cast; ring
          rw [h1, ← Int.ofNat_emod, Int.toNat_ofNat]
        simp only [GroupQuizSession.advance_turn, hord, hcidx, hcast]
        rw [List.getD_eq_getElem (u :: rest) u hnextlt]
      · rw [hord]
        exact List.getElem_mem hnextlt

theorem plookup_append_self (k : String) (v : ParticipantScore)
    (l : List (String × ParticipantScore)) (h : plookup k l = none) :
    plookup k (l ++ [(k, v)]) = some v := by
  induction l with
  | nil => simp [plookup]
  | cons hd tl ih =>
      obtain ⟨k2, v2⟩ := hd
      by_cases hk : k2 = k
      · simp [plookup, hk] at h
      · simp only [plookup, List.cons_append, if_neg hk] at h ⊢
        exact ih h

theorem pupdate_map_fst (k : String) (f : ParticipantScore → ParticipantScore)
    (l : List (String × ParticipantScore)) :
    (pupdate k f l).map Prod.fst = l.map Prod.fst := by
  induction l with
  | nil => simp [pupdate]
  | cons hd tl ih =>
      obtain ⟨k2, v2⟩ := hd
      by_cases hk : k2 = k
      · simp [pupdate, hk]
      · simp [pupdate, hk, ih]

theorem mem_map_fst_of_mem_perase (k uid : String)
    (l : List (String × ParticipantScore))
    (h : uid ∈ (perase k l).map Prod.fst) : uid ∈ l.map Prod.fst := by
  induction l with
  | nil => simp [perase] at h
  | cons hd tl ih =>
      obtain ⟨k2, v2⟩ := hd
      by_cases hk : k2 = k
      · simp only [perase, if_pos hk] at h
        simp [ih h]
      · simp only [perase, if_neg hk, List.map_cons, List.mem_cons] at h
        rcases h with h | h
        · simp [h]
        · simp [ih h]

namespace GroupQuizSession

theorem get_or_create_turn_order (s : GroupQuizSession) (uid uname : String) :
    (s.get_or_create_participant uid uname).turn_order = s.turn_order := by
  unfold get_or_create_participant
  split
  · rfl
  · split <;> rfl

theorem get_or_create_current_turn (s : GroupQuizSession) (uid uname : String) :
    (s.get_or_create_participant uid uname).current_turn_user_id = s.current_turn_user_id := by
  unfold get_or_create_participant
  split
  · rfl
  · split <;> rfl

theorem get_or_create_state (s : GroupQuizSession) (uid uname : String) :
    (s.get_or_create_participant uid uname).state = s.state := by
  unfold get_or_create_participant
  split
  · rfl
  · split <;> rfl

theorem get_or_create_quiz_id (s : GroupQuizSession) (uid uname : String) :
    (s.get_or_create_participant uid uname).quiz_id = s.quiz_id := by
  unfold get_or_create_participant
  split
  · rfl
  · split <;> rfl

theorem get_or_create_current_question (s : GroupQuizSession) (uid uname : String) :
    (s.get_or_create_participant uid uname).current_question = s.current_question := by
  unfold get_or_create_participant
  split
  · rfl
  · split <;> rfl

theorem get_or_create_total_questions (s : GroupQuizSession) (uid uname : String) :
    (s.get_or_create_participant uid uname).total_questions = s.total_questions := by
  unfold get_or_create_participant
  split
  · rfl
  · split <;> rfl

theorem get_or_create_questions_history (s : GroupQuizSession) (uid uname : String) :
    (s.get_or_create_participant uid uname).questions_history = s.questions_history := by
  unfold get_or_create_participant
  split
  · rfl
  · split <;> rfl

theorem get_or_create_participants_of_none (s : GroupQuizSession) (uid uname : String)
    (h : plookup uid s.participants = none) :
    (s.get_or_create_participant uid uname).participants
      = s.participants ++ [(uid, mkScore uid uname 0 0 0)] := by
  unfold get_or_create_participant
  rw [h]
  rfl

theorem get_or_create_keys (s : GroupQuizSession) (uid uname : String) :
    (s.get_or_create_participant uid uname).participants.map Prod.fst
      = if plookup uid s.participants = none
        then s.participants.map Prod.fst ++ [uid]
        else s.participants.map Prod.fst := by
  unfold get_or_create_participant
  cases h : plookup uid s.participants
  · simp [h]
  · simp only [h, if_neg (by simp : ¬ (some _ = none))]
    split
    · simp [pupdate_map_fst]
    · rfl

end GroupQuizSession

namespace GroupQuizSession

theorem start_new_question_participants (s : GroupQuizSession) (q : Nat) :
    (s.start_new_question q).participants = s.participants := rfl

theorem start_new_question_turn_order (s : GroupQuizSession) (q : Nat) :
    (s.start_new_question q).turn_order = s.turn_order := rfl

theorem start_new_question_current_turn (s : GroupQuizSession) (q : Nat) :
    (s.start_new_question q).current_turn_user_id = s.current_turn_user_id := rfl

theorem start_new_question_state (s : GroupQuizSession) (q : Nat) :
    (s.start_new_question q).state = s.state := rfl

theorem start_new_question_total (s : GroupQuizSession) (q : Nat) :
    (s.start_new_question q).total_questions = s.total_questions := rfl

theorem start_new_question_current (s : GroupQuizSession) (q : Nat) :
    (s.start_new_question q).current_question = q := rfl

theorem add_bonus_participants (s : GroupQuizSession) (n : Nat) :
    (s.add_bonus_questions n).2.participants = s.participants := rfl

theorem add_bonus_turn_order (s : GroupQuizSession) (n : Nat) :
    (s.add_bonus_questions n).2.turn_order = s.turn_order := rfl

theorem add_bonus_current_turn (s : GroupQuizSession) (n : Nat) :
    (s.add_bonus_questions n).2.current_turn_user_id = s.current_turn_user_id := rfl

theorem add_bonus_state (s : GroupQuizSession) (n : Nat) :
    (s.add_bonus_questions n).2.state = s.state := rfl

theorem add_bonus_current_question (s : GroupQuizSession) (n : Nat) :
    (s.add_bonus_questions n).2.current_question = s.current_question := rfl

theorem add_bonus_history (s : GroupQuizSession) (n : Nat) :
    (s.add_bonus_questions n).2.questions_history = s.questions_history := rfl

theorem add_bonus_total (s : GroupQuizSession) (n : Nat) :
    (s.add_bonus_questions n).2.total_questions
      = min (s.total_questions + QUESTIONS_PER_PARTICIPANT * n) MAX_QUESTIONS := rfl

theorem initialize_turn_order_participants (s : GroupQuizSession) :
    (s.initialize_turn_order).participants = s.participants := by
  unfold initialize_turn_order
  cases h : s.participants.map Prod.fst <;> simp [h]

theorem initialize_turn_order_turn_order (s : GroupQuizSession) :
    (s.initialize_turn_order).turn_order = s.participants.map Prod.fst := by
  unfold initialize_turn_order
  cases h : s.participants.map Prod.fst <;> simp [h]

theorem initialize_turn_order_state (s : GroupQuizSession) :
    (s.initialize_turn_order).state = s.state := by
  unfold initialize_turn_order
  cases h : s.participants.map Prod.fst <;> simp [h]

theorem initialize_turn_order_quiz_id (s : GroupQuizSession) :
    (s.initialize_turn_order).quiz_id = s.quiz_id := by
  unfold initialize_turn_order
  cases h : s.participants.map Prod.fst <;> simp [h]

theorem initialize_turn_order_current_question (s : GroupQuizSession) :
    (s.initialize_turn_order).current_question = s.current_question := by
  unfold initialize_turn_order
  cases h : s.participants.map Prod.fst <;> simp [h]

theorem initialize_turn_order_total (s : GroupQuizSession) :
    (s.initialize_turn_order).total_questions = s.total_questions := by
  unfold initialize_turn_order
  cases h : s.participants.map Prod.fst <;> simp [h]

theorem initialize_turn_order_history (s : GroupQuizSession) :
    (s.initialize_turn_order).questions_history = s.questions_history := by
  unfold initialize_turn_order
  cases h : s.participants.map Prod.fst <;> simp [h]

theorem initialize_turn_order_current_turn (s : GroupQuizSession) (u : String)
    (rest : List String) (h : s.participants.map Prod.fst = u :: rest) :
    (s.initialize_turn_order).current_turn_user_id = some u := by
  unfold initialize_turn_order
  rw [h]

theorem add_answer_turn_order (s : GroupQuizSession) (uid uname : String)
    (ai : Nat) (c : Bool) (p : Nat) :
    (s.add_answer uid uname ai c p).turn_order = s.turn_order := by
  unfold add_answer
  cases h : s.questions_history.getLast? <;>
    simp [h, get_or_create_turn_order]

theorem add_answer_current_turn (s : GroupQuizSession) (uid uname : String)
    (ai : Nat) (c : Bool) (p : Nat) :
    (s.add_answer uid uname ai c p).current_turn_user_id = s.current_turn_user_id := by
  unfold add_answer
  cases h : s.questions_history.getLast? <;>
    simp [h, get_or_create_current_turn]

theorem add_answer_state (s : GroupQuizSession) (uid uname : String)
    (ai : Nat) (c : Bool) (p : Nat) :
    (s.add_answer uid uname ai c p).state = s.state := by
  unfold add_answer
  cases h : s.questions_history.getLast? <;>
    simp [h, get_or_create_state]

theorem add_answer_quiz_id (s : GroupQuizSession) (uid uname : String)
    (ai : Nat) (c : Bool) (p : Nat) :
    (s.add_answer uid uname ai c p).quiz_id = s.quiz_id := by
  unfold add_answer
  cases h : s.questions_history.getLast? <;>
    simp [h, get_or_create_quiz_id]

theorem add_answer_current_question (s : GroupQuizSession) (uid uname : String)
    (ai : Nat) (c : Bool) (p : Nat) :
    (s.add_answer uid uname ai c p).current_question = s.current_question := by
  unfold add_answer
  cases h : s.questions_history.getLast? <;>
    simp [h, get_or_create_current_question]

theorem add_answer_total (s : GroupQuizSession) (uid uname : String)
    (ai : Nat) (c : Bool) (p : Nat) :
    (s.add_answer uid uname ai c p).total_questions = s.total_questions := by
  unfold add_answer
  cases h : s.questions_history.getLast? <;>
    simp [h, get_or_create_total_questions]

theorem add_answer_keys (s : GroupQuizSession) (uid uname : String)
    (ai : Nat) (c : Bool) (p : Nat) :
    (s.add_answer uid uname ai c p).participants.map Prod.fst
      = if plookup uid s.participants = none
        then s.participants.map Prod.fst ++ [uid]
        else s.participants.map Prod.fst := by
  unfold add_answer
  cases h : s.questions_history.getLast? <;>
    simp [h, pupdate_map_fst, get_or_create_keys]

end GroupQuizSession

/-!
Claims about the generation pipeline.
-/

/-- Claim C7: for every ordinal generated by the background worker, if
parsing or validation of the model output fails, the ordinal is still filled
with a deterministic fallback question that has the requested difficulty and
its first option (index 0) marked correct, and the failure is never
propagated to the caller (the generator is total and returns the fallback
value instead of an error). -/
theorem generation_fallback_c7
    (attempts : Nat → Except String QData)
    (validate : String → List String → Bool × String)
    (index : Nat) (difficulty : QuizDifficulty) (prev : List String)
    (e : String) (h : attempts 0 = Except.error e) :
    QuizEngine._generate_with_retry attempts validate index difficulty prev
        = (QuizEngine._create_fallback_question index difficulty, 1) ∧
    (QuizEngine._create_fallback_question index difficulty).difficulty = difficulty ∧
    (QuizEngine._create_fallback_question index difficulty).correct_index = 0 := by
  refine ⟨?_, rfl, rfl⟩
  unfold QuizEngine._generate_with_retry QuizEngine.MAX_RETRIES
  rw [QuizEngine.generateLoop, h]
  rfl

/-- Claim C7 witness: a concrete failing generation round yields the fallback
question for ordinal 2 at difficulty medium. -/
theorem generation_fallback_c7_witness :
    QuizEngine._generate_with_retry failAttempts collideValidate 2
        QuizDifficulty.medium []
      = (QuizEngine._create_fallback_question 2 QuizDifficulty.medium, 1) ∧
    (QuizEngine._create_fallback_question 2 QuizDifficulty.medium).difficulty
      = QuizDifficulty.medium ∧
    (QuizEngine._create_fallback_question 2 QuizDifficulty.medium).correct_index = 0 :=
  generation_fallback_c7 failAttempts collideValidate 2 QuizDifficulty.medium []
    "malformed model output" rfl

/-- Claim C8: when the generated question's topic key collides with the set
of already-used topics, the question is still accepted (the build result is
exactly the parsed question, no retry is performed), and the generation retry
budget is 1 attempt (`MAX_RETRIES = 1`; every run performs exactly one
generation attempt). -/
theorem collision_accepted_c8 :
    QuizEngine.MAX_RETRIES = 1 ∧
    (∀ (attempts : Nat → Except String QData)
       (validate : String → List String → Bool × String)
       (index : Nat) (difficulty : QuizDifficulty) (prev : List String)
       (q_data : QData),
      attempts 0 = Except.ok q_data →
      (validate q_data.question prev).1 = false →
      QuizEngine._generate_with_retry attempts validate index difficulty prev
        = (QuizEngine._create_question_from_data index q_data difficulty, 1)) ∧
    (∀ (attempts : Nat → Except String QData)
       (validate : String → List String → Bool × String)
       (index : Nat) (difficulty : QuizDifficulty) (prev : List String),
      (QuizEngine._generate_with_retry attempts validate index difficulty prev).2
        = QuizEngine.MAX_RETRIES) := by
  refine ⟨rfl, ?_, ?_⟩
  · intro attempts validate index difficulty prev q_data hok hcol
    unfold QuizEngine._generate_with_retry QuizEngine.MAX_RETRIES
    rw [QuizEngine.generateLoop, hok]
  · intro attempts validate index difficulty prev
    unfold QuizEngine._generate_with_retry QuizEngine.MAX_RETRIES
    rw [QuizEngine.generateLoop]
    cases h : attempts 0
    · rfl
    · rfl

/-- Claim C8 witness: a concrete parse success whose topic collides (the
verdict is always false) is accepted unchanged, in one attempt. -/
theorem collision_accepted_c8_witness :
    QuizEngine._generate_with_retry okAttempts collideValidate 2
        QuizDifficulty.medium ["prazo"]
      = (QuizEngine._create_question_from_data 2 sampleQData QuizDifficulty.medium, 1) ∧
    (collideValidate sampleQData.question ["prazo"]).1 = false :=
  ⟨collision_accepted_c8.2.1 okAttempts collideValidate 2 QuizDifficulty.medium
      ["prazo"] sampleQData rfl rfl, rfl⟩

/-!
Claims about the question totals.
-/

/-- Claim C5: when a game begins, `calculate_initial_questions` sets
total_questions to `max 1 (number of participants)` times the per-participant
constant, capped at the fixed maximum (and at least 1); and every bonus
mutation of total_questions only increases it, never decreases it, and never
takes it above that maximum. -/
theorem total_questions_bounds_c5 (s : GroupQuizSession) :
    ((s.calculate_initial_questions).total_questions
        = min (max 1 s.participants.length * GroupQuizSession.QUESTIONS_PER_PARTICIPANT)
            GroupQuizSession.MAX_QUESTIONS) ∧
    1 ≤ (s.calculate_initial_questions).total_questions ∧
    (s.calculate_initial_questions).total_questions ≤ GroupQuizSession.MAX_QUESTIONS ∧
    (∀ n, s.total_questions ≤ GroupQuizSession.MAX_QUESTIONS →
      s.total_questions ≤ (s.add_bonus_questions n).2.total_questions ∧
      (s.add_bonus_questions n).2.total_questions ≤ GroupQuizSession.MAX_QUESTIONS) := by
  refine ⟨rfl, ?_, ?_, ?_⟩
  · show 1 ≤ min (max 1 s.participants.length * GroupQuizSession.QUESTIONS_PER_PARTICIPANT)
      GroupQuizSession.MAX_QUESTIONS
    unfold GroupQuizSession.QUESTIONS_PER_PARTICIPANT GroupQuizSession.MAX_QUESTIONS
    omega
  · show min (max 1 s.participants.length * GroupQuizSession.QUESTIONS_PER_PARTICIPANT)
      GroupQuizSession.MAX_QUESTIONS ≤ GroupQuizSession.MAX_QUESTIONS
    omega
  · intro n hle
    rw [GroupQuizSession.add_bonus_total]
    unfold GroupQuizSession.MAX_QUESTIONS at hle
    unfold GroupQuizSession.QUESTIONS_PER_PARTICIPANT GroupQuizSession.MAX_QUESTIONS
    omega

/-- Claim C5 witness: the bounds evaluated on the concrete two-player
session `wSession` (total 6 ≤ 30), with one bonus grant. -/
theorem total_questions_bounds_c5_witness :
    ((wSession.calculate_initial_questions).total_questions
        = min (max 1 wSession.participants.length * GroupQuizSession.QUESTIONS_PER_PARTICIPANT)
            GroupQuizSession.MAX_QUESTIONS) ∧
    1 ≤ (wSession.calculate_initial_questions).total_questions ∧
    (wSession.calculate_initial_questions).total_questions ≤ GroupQuizSession.MAX_QUESTIONS ∧
    (∀ n, wSession.total_questions ≤ GroupQuizSession.MAX_QUESTIONS →
      wSession.total_questions ≤ (wSession.add_bonus_questions n).2.total_questions ∧
      (wSession.add_bonus_questions n).2.total_questions ≤ GroupQuizSession.MAX_QUESTIONS) :=
  total_questions_bounds_c5 wSession

/-!
Claim C9: ranking order and stability.
-/

theorem rankGe_of_key_eq (p q : ParticipantScore)
    (h : GroupQuizSession.rankKey p = GroupQuizSession.rankKey q) :
    GroupQuizSession.rankGe p q := by
  unfold GroupQuizSession.rankKey at h
  unfold GroupQuizSession.rankGe
  have h1 : p.total_score = q.total_score := congrArg Prod.fst h
  have h2 : p.correct_answers = q.correct_answers := congrArg Prod.snd h
  omega

theorem key_ne_of_not_rankGe (p b : ParticipantScore)
    (h : ¬ GroupQuizSession.rankGe p b) :
    GroupQuizSession.rankKey p ≠ GroupQuizSession.rankKey b :=
  fun hk => h (rankGe_of_key_eq p b hk)

theorem filter_key_orderedInsert (p : ParticipantScore)
    (l : List ParticipantScore) (k : Nat × Nat) :
    (List.orderedInsert GroupQuizSession.rankGe p l).filter
        (fun q => decide (GroupQuizSession.rankKey q = k))
      = if GroupQuizSession.rankKey p = k
        then p :: l.filter (fun q => decide (GroupQuizSession.rankKey q = k))
        else l.filter (fun q => decide (GroupQuizSession.rankKey q = k)) := by
  induction l with
  | nil =>
      by_cases hp : GroupQuizSession.rankKey p = k <;>
        simp [List.orderedInsert, List.filter_cons, hp]
  | cons b t ih =>
      by_cases hr : GroupQuizSession.rankGe p b
      · rw [List.orderedInsert, if_pos hr]
        by_cases hp : GroupQuizSession.rankKey p = k <;>
          simp [List.filter_cons, hp]
      · rw [List.orderedInsert, if_neg hr]
        by_cases hp : GroupQuizSession.rankKey p = k
        · have hb : ¬ (GroupQuizSession.rankKey b = k) := by
            intro hbk
            exact key_ne_of_not_rankGe p b hr (hp.trans hbk.symm)
          simp [List.filter_cons, hp, hb, ih]
        · by_cases hb : GroupQuizSession.rankKey b = k <;>
            simp [List.filter_cons, hp, hb, ih]

theorem filter_key_insertionSort (l : List ParticipantScore) (k : Nat × Nat) :
    (List.insertionSort GroupQuizSession.rankGe l).filter
        (fun q => decide (GroupQuizSession.rankKey q = k))
      = l.filter (fun q => decide (GroupQuizSession.rankKey q = k)) := by
  induction l with
  | nil => rfl
  | cons b t ih =>
      rw [List.insertionSort, filter_key_orderedInsert]
      by_cases hb : GroupQuizSession.rankKey b = k <;>
        simp [List.filter_cons, hb, ih]

/-- Claim C9: for every session, the ranking is the participant list (the
dict values in join order) sorted by total score descending, then
correct-answer count descending — i.e. it is a permutation of the values,
ordered by the descending key relation — and participants with equal
(score, correct) keys appear in their original join order (the subsequence
with any fixed key is unchanged). -/
theorem get_ranking_spec_c9 (s : GroupQuizSession) :
    List.Perm s.get_ranking (s.participants.map Prod.snd) ∧
    List.Sorted GroupQuizSession.rankGe s.get_ranking ∧
    (∀ k : Nat × Nat,
      s.get_ranking.filter (fun q => decide (GroupQuizSession.rankKey q = k))
        = (s.participants.map Prod.snd).filter
            (fun q => decide (GroupQuizSession.rankKey q = k))) :=
  ⟨List.perm_insertionSort GroupQuizSession.rankGe (s.participants.map Prod.snd),
   List.sorted_insertionSort GroupQuizSession.rankGe (s.participants.map Prod.snd),
   fun k => filter_key_insertionSort (s.participants.map Prod.snd) k⟩

/-!
Claim C6: the polling read contract of the pipeline.
-/

theorem pollLoop_eq (cacheAt : Nat → Option QuizState) (idx fuel t : Nat) :
    QuizEngine.pollLoop cacheAt idx fuel t
      = match cacheAt t with
        | some st =>
            match qlookup idx st.questions with
            | some q => some q
            | none =>
                match fuel with
                | 0 => none
                | fuel' + 1 =>
                    if st.error.isSome then none
                    else QuizEngine.pollLoop cacheAt idx fuel' (t + 1)
        | none =>
            match fuel with
            | 0 => none
            | fuel' + 1 => QuizEngine.pollLoop cacheAt idx fuel' (t + 1) := by
  rw [QuizEngine.pollLoop.eq_def]

theorem pollLoop_none_of_never (cacheAt : Nat → Option QuizState) (idx : Nat)
    (h : ∀ t st, cacheAt t = some st → qlookup idx st.questions = none) :
    ∀ fuel t, QuizEngine.pollLoop cacheAt idx fuel t = none := by
  intro fuel
  induction fuel with
  | zero =>
      intro t
      rw [pollLoop_eq]
      cases hc : cacheAt t with
      | none => rfl
      | some st => simp [h t st hc]
  | succ f ih =>
      intro t
      rw [pollLoop_eq]
      cases hc : cacheAt t with
      | none => simpa using ih (t + 1)
      | some st =>
          simp only [h t st hc]
          by_cases he : st.error.isSome <;> simp [he, ih (t + 1)]

/-- Claim C6: for every quiz id and ordinal, `get_question` performs at most
one reload from durable storage, and none when the quiz id is in the memory
cache; it returns the question immediately whenever the ordinal is present in
the cached state's question map; and it returns not-ready (`none`) when a
terminal error is set on the state, or when the timeout elapses without the
ordinal appearing at any poll tick. -/
theorem get_question_polling_c6 :
    (∀ (cacheAt : Nat → Option QuizState) (sc : Bool) (sv : Option QuizState)
       (idx fuel : Nat),
      (QuizEngine.get_question cacheAt sc sv idx fuel).1 ≤ 1 ∧
      ((cacheAt 0).isSome →
        (QuizEngine.get_question cacheAt sc sv idx fuel).1 = 0)) ∧
    (∀ (cacheAt : Nat → Option QuizState) (sc : Bool) (sv : Option QuizState)
       (idx fuel : Nat) (st : QuizState) (q : QuizQuestion),
      cacheAt 0 = some st → qlookup idx st.questions = some q →
      (QuizEngine.get_question cacheAt sc sv idx fuel).2 = some q) ∧
    (∀ (cacheAt : Nat → Option QuizState) (sc : Bool) (sv : Option QuizState)
       (idx fuel : Nat) (st : QuizState),
      cacheAt 0 = some st → st.error.isSome →
      qlookup idx st.questions = none →
      (QuizEngine.get_question cacheAt sc sv idx fuel).2 = none) ∧
    (∀ (cacheAt : Nat → Option QuizState) (sc : Bool) (sv : Option QuizState)
       (idx fuel : Nat),
      (∀ t st, cacheAt t = some st → qlookup idx st.questions = none) →
      (∀ st, sv = some st → qlookup idx st.questions = none) →
      (QuizEngine.get_question cacheAt sc sv idx fuel).2 = none) := by
  refine ⟨?_, ?_, ?_, ?_⟩
  · intro cacheAt sc sv idx fuel
    constructor
    · unfold QuizEngine.get_question
      dsimp only
      split <;> simp
    · intro hs
      cases hc : cacheAt 0 with
      | none => rw [hc] at hs; simp at hs
      | some st => simp [QuizEngine.get_question, hc]
  · intro cacheAt sc sv idx fuel st q hc hq
    unfold QuizEngine.get_question
    dsimp only
    rw [pollLoop_eq]
    simp [hc, hq]
  · intro cacheAt sc sv idx fuel st hc herr hq
    unfold QuizEngine.get_question
    dsimp only
    rw [pollLoop_eq]
    cases fuel <;> simp [hc, hq, herr]
  · intro cacheAt sc sv idx fuel hnever hsv
    unfold QuizEngine.get_question
    dsimp only
    apply pollLoop_none_of_never
    intro t st hst
    cases hct : cacheAt t with
    | some st2 =>
        rw [hct] at hst
        dsimp only at hst
        injection hst with h2
        subst h2
        exact hnever t st2 hct
    | none =>
        rw [hct] at hst
        dsimp only at hst
        split at hst
        · exact hsv st hst
        · exact hnever 0 st hst

/-- Claim C6 witness: the four contract clauses evaluated on concrete cache
environments (ready state, error state, empty cache). -/
theorem get_question_polling_c6_witness :
    ((QuizEngine.get_question cacheReady true none 1 3).1 = 0) ∧
    ((QuizEngine.get_question cacheReady true none 1 3).2 = some sampleQuestion) ∧
    ((QuizEngine.get_question cacheErr true none 1 3).2 = none) ∧
    ((QuizEngine.get_question cacheEmpty true none 2 3).2 = none) :=
  ⟨(get_question_polling_c6.1 cacheReady true none 1 3).2 rfl,
   get_question_polling_c6.2.1 cacheReady true none 1 3 readyQuizState sampleQuestion
     rfl rfl,
   get_question_polling_c6.2.2.1 cacheErr true none 1 3 errorQuizState rfl rfl rfl,
   get_question_polling_c6.2.2.2 cacheEmpty true none 2 3
     (fun _ _ h => Option.noConfusion h) (fun _ h => Option.noConfusion h)⟩

/-!
Claim C1: rejected answers never mutate score or answer records.
-/

/-- Claim C1: for every session in state ACTIVE with an active quiz, an
answer letter whose sender is not the current-turn participant, or whose
sender already has an answer record for the current ordinal, leaves the
participant map (hence every score record) and the question history (hence
the current question's answer-record list) unchanged. -/
theorem answer_frame_c1 (s : GroupQuizSession) (uid uname ans : String)
    (fetched is_correct : Bool) (points : Nat) (qz : String)
    (_hact : s.state = GroupQuizState.ACTIVE)
    (hq : s.quiz_id = some qz)
    (hdup : ¬ s.is_user_turn uid ∨ s.has_answered uid) :
    (handle_group_answer s uid uname ans fetched is_correct points).participants
        = s.participants ∧
    (handle_group_answer s uid uname ans fetched is_correct points).questions_history
        = s.questions_history := by
  unfold handle_group_answer
  have hqn : s.quiz_id.isNone = false := by rw [hq]; rfl
  simp only [hqn, Bool.false_eq_true, if_false]
  by_cases hturn : s.is_user_turn uid
  · have hhas : s.has_answered uid := hdup.resolve_left (not_not_intro hturn)
    simp [hturn, hhas]
  · simp only [hturn, not_false_eq_true, if_true]
    cases hdisp : s.get_current_turn_display with
    | some v => simp
    | none =>
        cases hto : (s.initialize_turn_order).turn_order with
        | nil =>
            simp [GroupQuizSession.initialize_turn_order_participants,
                  GroupQuizSession.initialize_turn_order_history]
        | cons u rest =>
            simp [GroupQuizSession.initialize_turn_order_participants,
                  GroupQuizSession.initialize_turn_order_history]

/-- Claim C1 witness: in the concrete session `wSession` it is "a"'s turn;
an answer from "b" changes neither the participant map nor the history. -/
theorem answer_frame_c1_witness :
    (handle_group_answer wSession "b" "Bia" "A" true true 1).participants
        = wSession.participants ∧
    (handle_group_answer wSession "b" "Bia" "A" true true 1).questions_history
        = wSession.questions_history :=
  answer_frame_c1 wSession "b" "Bia" "A" true true 1 "q1" rfl rfl
    (Or.inl (by decide))

namespace GroupQuizSession

theorem add_part_participants (s : GroupQuizSession) (uid : String) :
    (s.add_participant_to_turn_order uid).participants = s.participants := by
  unfold add_participant_to_turn_order
  split
  · rfl
  · dsimp only
    split <;> rfl

theorem add_part_state (s : GroupQuizSession) (uid : String) :
    (s.add_participant_to_turn_order uid).state = s.state := by
  unfold add_participant_to_turn_order
  split
  · rfl
  · dsimp only
    split <;> rfl

theorem add_part_quiz_id (s : GroupQuizSession) (uid : String) :
    (s.add_participant_to_turn_order uid).quiz_id = s.quiz_id := by
  unfold add_participant_to_turn_order
  split
  · rfl
  · dsimp only
    split <;> rfl

theorem add_part_current_question (s : GroupQuizSession) (uid : String) :
    (s.add_participant_to_turn_order uid).current_question = s.current_question := by
  unfold add_participant_to_turn_order
  split
  · rfl
  · dsimp only
    split <;> rfl

theorem add_part_total (s : GroupQuizSession) (uid : String) :
    (s.add_participant_to_turn_order uid).total_questions = s.total_questions := by
  unfold add_participant_to_turn_order
  split
  · rfl
  · dsimp only
    split <;> rfl

theorem add_part_history (s : GroupQuizSession) (uid : String) :
    (s.add_participant_to_turn_order uid).questions_history = s.questions_history := by
  unfold add_participant_to_turn_order
  split
  · rfl
  · dsimp only
    split <;> rfl

theorem add_part_turn_order_of_mem (s : GroupQuizSession) (uid : String)
    (h : uid ∈ s.turn_order) :
    (s.add_participant_to_turn_order uid).turn_order = s.turn_order := by
  unfold add_participant_to_turn_order
  rw [if_pos h]

theorem add_part_turn_order_of_not_mem (s : GroupQuizSession) (uid : String)
    (h : uid ∉ s.turn_order) :
    (s.add_participant_to_turn_order uid).turn_order = s.turn_order ++ [uid] := by
  unfold add_participant_to_turn_order
  rw [if_neg h]
  dsimp only
  split <;> rfl

theorem mem_add_part_turn_order (s : GroupQuizSession) (uid : String) :
    uid ∈ (s.add_participant_to_turn_order uid).turn_order := by
  by_cases h : uid ∈ s.turn_order
  · rw [add_part_turn_order_of_mem s uid h]; exact h
  · rw [add_part_turn_order_of_not_mem s uid h]
    exact List.mem_append_right _ (List.mem_singleton.mpr rfl)

theorem subset_add_part_turn_order (s : GroupQuizSession) (uid v : String)
    (h : v ∈ s.turn_order) :
    v ∈ (s.add_participant_to_turn_order uid).turn_order := by
  by_cases hm : uid ∈ s.turn_order
  · rw [add_part_turn_order_of_mem s uid hm]; exact h
  · rw [add_part_turn_order_of_not_mem s uid hm]
    exact List.mem_append_left _ h

end GroupQuizSession

/-!
Claim C3: on-the-fly registration during an ACTIVE quiz.
-/

/-- Claim C3 counterexample: in the concrete ACTIVE session `adminSession`,
the sender "adm" (the session starter, who never joined) is not in the
participant map, yet processing a message from "adm" registers nothing and
changes nothing — refuting the claim that every unknown sender is
registered. -/
theorem checkin_counterexample_c3 :
    adminSession.state = GroupQuizState.ACTIVE ∧
    plookup "adm" adminSession.participants = none ∧
    process_check_in adminSession "adm" "Admin" = adminSession ∧
    plookup "adm" (process_check_in adminSession "adm" "Admin").participants = none ∧
    (process_check_in adminSession "adm" "Admin").total_questions
        = adminSession.total_questions :=
  ⟨rfl, rfl, rfl, rfl, rfl⟩

/-- Claim C3 (amended): for every session in state ACTIVE and every sender
whose id is not yet in the participant map — provided the sender is not the
bot number (nor prefixed by it), has a nonempty id that does not end in
"@g.us", is not the session starter, and is not already in turn_order —
processing any message from that sender registers the sender as a
participant with a zeroed score, appends their id to turn_order, and raises
total_questions by the per-participant bonus, capped at the fixed maximum. -/
theorem checkin_amended_c3 (s : GroupQuizSession) (uid uname : String)
    (hact : s.state = GroupQuizState.ACTIVE)
    (hnew : plookup uid s.participants = none)
    (hbot : ¬ (uid = BOT_NUMBER ∨ uid.startsWith BOT_NUMBER))
    (hne : uid ≠ "") (hg : ¬ uid.endsWith "@g.us" = true)
    (hadm : s.started_by ≠ some uid) :
    plookup uid (process_check_in s uid uname).participants
        = some (mkScore uid uname 0 0 0) ∧
    (process_check_in s uid uname).turn_order
        = (if uid ∈ s.turn_order then s.turn_order else s.turn_order ++ [uid]) ∧
    (process_check_in s uid uname).total_questions
        = min (s.total_questions + GroupQuizSession.QUESTIONS_PER_PARTICIPANT)
            GroupQuizSession.MAX_QUESTIONS := by
  unfold process_check_in
  rw [if_neg hbot, if_pos ⟨hact, hnew, hne, hg, hadm⟩]
  have hp1 : (s.get_or_create_participant uid uname).participants
      = s.participants ++ [(uid, mkScore uid uname 0 0 0)] :=
    GroupQuizSession.get_or_create_participants_of_none s uid uname hnew
  have ht1 : (s.get_or_create_participant uid uname).turn_order = s.turn_order :=
    GroupQuizSession.get_or_create_turn_order s uid uname
  refine ⟨?_, ?_, ?_⟩
  · rw [GroupQuizSession.add_bonus_participants,
        GroupQuizSession.add_part_participants, hp1]
    exact plookup_append_self uid (mkScore uid uname 0 0 0) s.participants hnew
  · rw [GroupQuizSession.add_bonus_turn_order]
    by_cases hmem : uid ∈ s.turn_order
    · have hmem1 : uid ∈ (s.get_or_create_participant uid uname).turn_order := by
        rw [ht1]; exact hmem
      rw [GroupQuizSession.add_part_turn_order_of_mem _ uid hmem1, ht1, if_pos hmem]
    · have hmem1 : uid ∉ (s.get_or_create_participant uid uname).turn_order := by
        rw [ht1]; exact hmem
      rw [GroupQuizSession.add_part_turn_order_of_not_mem _ uid hmem1, ht1, if_neg hmem]
  · rw [GroupQuizSession.add_bonus_total,
        GroupQuizSession.add_part_total,
        GroupQuizSession.get_or_create_total_questions, Nat.mul_one]

/-- Claim C3 (amended) witness: a fresh sender "c" checking into `wSession`
is registered, appended to the turn order, and grants the capped bonus; and
the departed participant "b" (after SAIR, still in turn_order) who sends a
message is re-registered with the bonus, without a second turn-order entry. -/
theorem checkin_amended_c3_witness :
    (plookup "c" (process_check_in wSession "c" "Caio").participants
        = some (mkScore "c" "Caio" 0 0 0) ∧
     (process_check_in wSession "c" "Caio").turn_order
        = (if "c" ∈ wSession.turn_order then wSession.turn_order
           else wSession.turn_order ++ ["c"]) ∧
     (process_check_in wSession "c" "Caio").total_questions
        = min (wSession.total_questions + GroupQuizSession.QUESTIONS_PER_PARTICIPANT)
            GroupQuizSession.MAX_QUESTIONS) ∧
    (plookup "b" (process_check_in (sair_command wSession "b") "b" "Bia").participants
        = some (mkScore "b" "Bia" 0 0 0) ∧
     (process_check_in (sair_command wSession "b") "b" "Bia").turn_order
        = (if "b" ∈ (sair_command wSession "b").turn_order
           then (sair_command wSession "b").turn_order
           else (sair_command wSession "b").turn_order ++ ["b"]) ∧
     (process_check_in (sair_command wSession "b") "b" "Bia").total_questions
        = min ((sair_command wSession "b").total_questions
              + GroupQuizSession.QUESTIONS_PER_PARTICIPANT)
            GroupQuizSession.MAX_QUESTIONS) :=
  ⟨checkin_amended_c3 wSession "c" "Caio" rfl rfl (by decide) (by decide) (by decide)
     (by decide),
   checkin_amended_c3 (sair_command wSession "b") "b" "Bia" rfl (by decide)
     (by decide) (by decide) (by decide) (by decide)⟩

/-!
Claim C4: the question counter.
-/

theorem handle_group_answer_counters (s : GroupQuizSession) (uid uname ans : String)
    (f c : Bool) (p : Nat) :
    ((handle_group_answer s uid uname ans f c p).current_question = s.current_question ∧
     (handle_group_answer s uid uname ans f c p).total_questions = s.total_questions) ∨
    ((handle_group_answer s uid uname ans f c p).current_question
        = s.current_question + 1 ∧
     (handle_group_answer s uid uname ans f c p).total_questions = s.total_questions ∧
     s.current_question < s.total_questions) := by
  unfold handle_group_answer
  by_cases hqz : s.quiz_id.isNone
  · left; rw [if_pos hqz]; exact ⟨rfl, rfl⟩
  · rw [if_neg hqz]
    by_cases hturn : s.is_user_turn uid
    · rw [if_neg (not_not_intro hturn)]
      by_cases hhas : s.has_answered uid
      · left; rw [if_pos hhas]; exact ⟨rfl, rfl⟩
      · rw [if_neg hhas]
        by_cases hf : f = true
        · subst hf
          rw [if_neg (by simp)]
          cases hai : letterIndex ans with
          | none => left; exact ⟨rfl, rfl⟩
          | some ai =>
              dsimp only
              have hc2 : ((s.add_answer uid uname ai c p).advance_turn).2.current_question
                  = s.current_question := by
                rw [GroupQuizSession.advance_turn_current_question,
                    GroupQuizSession.add_answer_current_question]
              have ht2 : ((s.add_answer uid uname ai c p).advance_turn).2.total_questions
                  = s.total_questions := by
                rw [GroupQuizSession.advance_turn_total_questions,
                    GroupQuizSession.add_answer_total]
              by_cases hfin : ((s.add_answer uid uname ai c p).advance_turn).2.current_question
                  ≥ ((s.add_answer uid uname ai c p).advance_turn).2.total_questions
              · left
                rw [if_pos hfin]
                exact ⟨hc2, ht2⟩
              · right
                rw [if_neg hfin]
                refine ⟨?_, ?_, ?_⟩
                · rw [GroupQuizSession.start_new_question_current, hc2]
                · rw [GroupQuizSession.start_new_question_total, ht2]
                · rw [hc2, ht2] at hfin; omega
        · left
          rw [if_pos hf]
          exact ⟨rfl, rfl⟩
    · rw [if_pos hturn]
      cases hdisp : s.get_current_turn_display with
      | some v => left; exact ⟨rfl, rfl⟩
      | none =>
          dsimp only
          cases hto : (s.initialize_turn_order).turn_order with
          | nil =>
              left
              exact ⟨GroupQuizSession.initialize_turn_order_current_question s,
                     GroupQuizSession.initialize_turn_order_total s⟩
          | cons u rest =>
              left
              exact ⟨GroupQuizSession.initialize_turn_order_current_question s,
                     GroupQuizSession.initialize_turn_order_total s⟩

theorem send_next_counters (s : GroupQuizSession) :
    ((send_next_group_question s).current_question = s.current_question ∧
     (send_next_group_question s).total_questions = s.total_questions) ∨
    ((send_next_group_question s).current_question = s.current_question + 1 ∧
     (send_next_group_question s).total_questions = s.total_questions ∧
     s.current_question < s.total_questions) := by
  unfold send_next_group_question
  by_cases hqz : s.quiz_id.isNone
  · left; rw [if_pos hqz]; exact ⟨rfl, rfl⟩
  · rw [if_neg hqz]
    have hc1 : (s.advance_turn).2.current_question = s.current_question :=
      GroupQuizSession.advance_turn_current_question s
    have ht1 : (s.advance_turn).2.total_questions = s.total_questions :=
      GroupQuizSession.advance_turn_total_questions s
    by_cases hfin : (s.advance_turn).2.current_question ≥ (s.advance_turn).2.total_questions
    · left
      rw [if_pos hfin]
      exact ⟨hc1, ht1⟩
    · right
      rw [if_neg hfin]
      dsimp only
      refine ⟨?_, ?_, ?_⟩
      · rw [GroupQuizSession.start_new_question_current, hc1]
      · rw [GroupQuizSession.start_new_question_total, ht1]
      · rw [hc1, ht1] at hfin; omega

theorem process_check_in_counters (s : GroupQuizSession) (uid uname : String) :
    (process_check_in s uid uname).current_question = s.current_question ∧
    ((process_check_in s uid uname).total_questions = s.total_questions ∨
     (process_check_in s uid uname).total_questions
        = min (s.total_questions + GroupQuizSession.QUESTIONS_PER_PARTICIPANT)
            GroupQuizSession.MAX_QUESTIONS) := by
  unfold process_check_in
  by_cases h1 : (uid = BOT_NUMBER ∨ uid.startsWith BOT_NUMBER)
  · rw [if_pos h1]; exact ⟨rfl, Or.inl rfl⟩
  · rw [if_neg h1]
    by_cases h2 : s.state = GroupQuizState.ACTIVE ∧
        plookup uid s.participants = none ∧
        uid ≠ "" ∧ ¬ uid.endsWith "@g.us" = true ∧
        s.started_by ≠ some uid
    · rw [if_pos h2]
      constructor
      · rw [GroupQuizSession.add_bonus_current_question,
            GroupQuizSession.add_part_current_question,
            GroupQuizSession.get_or_create_current_question]
      · right
        rw [GroupQuizSession.add_bonus_total,
            GroupQuizSession.add_part_total,
            GroupQuizSession.get_or_create_total_questions, Nat.mul_one]
    · rw [if_neg h2]; exact ⟨rfl, Or.inl rfl⟩

theorem handle_group_answer_accepted_state (s : GroupQuizSession)
    (uid uname ans : String) (c : Bool) (p : Nat) (qz : String) (ai : Nat)
    (hq : s.quiz_id = some qz) (hturn : s.is_user_turn uid)
    (hhas : ¬ s.has_answered uid) (hai : letterIndex ans = some ai) :
    (s.current_question ≥ s.total_questions →
      (handle_group_answer s uid uname ans true c p).state = GroupQuizState.FINISHED ∧
      (handle_group_answer s uid uname ans true c p).current_question
        = s.current_question) ∧
    (s.current_question < s.total_questions →
      (handle_group_answer s uid uname ans true c p).current_question
        = s.current_question + 1 ∧
      (handle_group_answer s uid uname ans true c p).state = s.state) := by
  unfold handle_group_answer
  have hqn : s.quiz_id.isNone = false := by rw [hq]; rfl
  simp only [hqn, Bool.false_eq_true, if_false]
  rw [if_neg (not_not_intro hturn), if_neg hhas, if_neg (by simp), hai]
  dsimp only
  have hc2 : ((s.add_answer uid uname ai c p).advance_turn).2.current_question
      = s.current_question := by
    rw [GroupQuizSession.advance_turn_current_question,
        GroupQuizSession.add_answer_current_question]
  have ht2 : ((s.add_answer uid uname ai c p).advance_turn).2.total_questions
      = s.total_questions := by
    rw [GroupQuizSession.advance_turn_total_questions,
        GroupQuizSession.add_answer_total]
  have hst2 : ((s.add_answer uid uname ai c p).advance_turn).2.state = s.state := by
    rw [GroupQuizSession.advance_turn_state, GroupQuizSession.add_answer_state]
  constructor
  · intro hgate
    have hfin : ((s.add_answer uid uname ai c p).advance_turn).2.current_question
        ≥ ((s.add_answer uid uname ai c p).advance_turn).2.total_questions := by
      rw [hc2, ht2]; exact hgate
    rw [if_pos hfin]
    exact ⟨rfl, hc2⟩
  · intro hgate
    have hfin : ¬ (((s.add_answer uid uname ai c p).advance_turn).2.current_question
        ≥ ((s.add_answer uid uname ai c p).advance_turn).2.total_questions) := by
      rw [hc2, ht2]; omega
    rw [if_neg hfin]
    exact ⟨by rw [GroupQuizSession.start_new_question_current, hc2],
           by rw [GroupQuizSession.start_new_question_state, hst2]⟩

theorem send_next_state (s : GroupQuizSession) (qz : String)
    (hq : s.quiz_id = some qz) :
    (s.current_question ≥ s.total_questions →
      (send_next_group_question s).state = GroupQuizState.FINISHED ∧
      (send_next_group_question s).current_question = s.current_question) ∧
    (s.current_question < s.total_questions →
      (send_next_group_question s).current_question = s.current_question + 1 ∧
      (send_next_group_question s).state = GroupQuizState.ACTIVE) := by
  unfold send_next_group_question
  have hqn : s.quiz_id.isNone = false := by rw [hq]; rfl
  simp only [hqn, Bool.false_eq_true, if_false]
  have hc1 : (s.advance_turn).2.current_question = s.current_question :=
    GroupQuizSession.advance_turn_current_question s
  have ht1 : (s.advance_turn).2.total_questions = s.total_questions :=
    GroupQuizSession.advance_turn_total_questions s
  constructor
  · intro hgate
    have hfin : (s.advance_turn).2.current_question ≥ (s.advance_turn).2.total_questions := by
      rw [hc1, ht1]; exact hgate
    rw [if_pos hfin]
    exact ⟨rfl, hc1⟩
  · intro hgate
    have hfin : ¬ ((s.advance_turn).2.current_question ≥ (s.advance_turn).2.total_questions) := by
      rw [hc1, ht1]; omega
    rw [if_neg hfin]
    exact ⟨by dsimp only; rw [GroupQuizSession.start_new_question_current, hc1], rfl⟩

theorem comecar_counters (s : GroupQuizSession) (qid : String)
    (h : s.participants ≠ []) :
    (comecar_command s qid true true).current_question = 1 ∧
    1 ≤ (comecar_command s qid true true).total_questions := by
  unfold comecar_command
  have hlen : ¬ (s.participants.length = 0) := by
    intro h0
    exact h (List.length_eq_zero.mp h0)
  rw [if_neg hlen, if_neg (by simp), if_neg (by simp)]
  constructor
  · exact GroupQuizSession.start_new_question_current _ 1
  · rw [GroupQuizSession.start_new_question_total]
    have h1 : ({ (s.calculate_initial_questions).initialize_turn_order with
        quiz_id := some qid, state := GroupQuizState.ACTIVE }).total_questions
        = ((s.calculate_initial_questions).initialize_turn_order).total_questions := rfl
    rw [h1, GroupQuizSession.initialize_turn_order_total]
    show 1 ≤ min (max 1 s.participants.length * GroupQuizSession.QUESTIONS_PER_PARTICIPANT)
        GroupQuizSession.MAX_QUESTIONS
    unfold GroupQuizSession.QUESTIONS_PER_PARTICIPANT GroupQuizSession.MAX_QUESTIONS
    omega

/-- Claim C4: `current_question` never exceeds `total_questions`: the bound
is established at begin (the counter starts at 1) and preserved by answers,
the next command and mid-game check-ins; each advance that does not finish
the game increases `current_question` by exactly 1, and an advance that
would pass `total_questions` instead moves the session to FINISHED without
changing `current_question`. -/
theorem question_counter_c4 :
    (∀ (s : GroupQuizSession) (qid : String), s.participants ≠ [] →
      (comecar_command s qid true true).current_question = 1 ∧
      (comecar_command s qid true true).current_question
        ≤ (comecar_command s qid true true).total_questions) ∧
    (∀ (s : GroupQuizSession) (uid uname ans : String) (f c : Bool) (p : Nat),
      s.current_question ≤ s.total_questions →
      (handle_group_answer s uid uname ans f c p).current_question
        ≤ (handle_group_answer s uid uname ans f c p).total_questions) ∧
    (∀ s : GroupQuizSession, s.current_question ≤ s.total_questions →
      (send_next_group_question s).current_question
        ≤ (send_next_group_question s).total_questions) ∧
    (∀ (s : GroupQuizSession) (uid uname : String),
      s.current_question ≤ s.total_questions →
      s.total_questions ≤ GroupQuizSession.MAX_QUESTIONS →
      (process_check_in s uid uname).current_question
        ≤ (process_check_in s uid uname).total_questions) ∧
    (∀ (s : GroupQuizSession) (uid uname ans : String) (c : Bool) (p : Nat)
       (qz : String) (ai : Nat),
      s.quiz_id = some qz → s.is_user_turn uid → ¬ s.has_answered uid →
      letterIndex ans = some ai →
      (s.current_question ≥ s.total_questions →
        (handle_group_answer s uid uname ans true c p).state
          = GroupQuizState.FINISHED ∧
        (handle_group_answer s uid uname ans true c p).current_question
          = s.current_question) ∧
      (s.current_question < s.total_questions →
        (handle_group_answer s uid uname ans true c p).current_question
          = s.current_question + 1 ∧
        (handle_group_answer s uid uname ans true c p).state = s.state)) ∧
    (∀ (s : GroupQuizSession) (qz : String), s.quiz_id = some qz →
      (s.current_question ≥ s.total_questions →
        (send_next_group_question s).state = GroupQuizState.FINISHED ∧
        (send_next_group_question s).current_question = s.current_question) ∧
      (s.current_question < s.total_questions →
        (send_next_group_question s).current_question = s.current_question + 1 ∧
        (send_next_group_question s).state = GroupQuizState.ACTIVE)) := by
  refine ⟨?_, ?_, ?_, ?_, ?_, ?_⟩
  · intro s qid h
    obtain ⟨h1, h2⟩ := comecar_counters s qid h
    exact ⟨h1, by omega⟩
  · intro s uid uname ans f c p hle
    rcases handle_group_answer_counters s uid uname ans f c p with ⟨h1, h2⟩ | ⟨h1, h2, h3⟩ <;>
      omega
  · intro s hle
    rcases send_next_counters s with ⟨h1, h2⟩ | ⟨h1, h2, h3⟩ <;> omega
  · intro s uid uname hle hmax
    obtain ⟨h1, h2⟩ := process_check_in_counters s uid uname
    unfold GroupQuizSession.QUESTIONS_PER_PARTICIPANT GroupQuizSession.MAX_QUESTIONS at h2
    unfold GroupQuizSession.MAX_QUESTIONS at hmax
    rcases h2 with h2 | h2 <;> omega
  · intro s uid uname ans c p qz ai hq hturn hhas hai
    exact handle_group_answer_accepted_state s uid uname ans c p qz ai hq hturn hhas hai
  · intro s qz hq
    exact send_next_state s qz hq

/-- Claim C4 witness: the counter facts evaluated on the concrete session
`wSession` (current 1 of total 6): begin sets the counter to 1, a rejected
and an accepted answer keep the bound, and the accepted advance goes to 2. -/
theorem question_counter_c4_witness :
    ((comecar_command wSession "q9" true true).current_question = 1 ∧
     (comecar_command wSession "q9" true true).current_question
       ≤ (comecar_command wSession "q9" true true).total_questions) ∧
    ((handle_group_answer wSession "b" "Bia" "A" true true 1).current_question
       ≤ (handle_group_answer wSession "b" "Bia" "A" true true 1).total_questions) ∧
    ((send_next_group_question wSession).current_question
       ≤ (send_next_group_question wSession).total_questions) ∧
    ((process_check_in wSession "c" "Caio").current_question
       ≤ (process_check_in wSession "c" "Caio").total_questions) ∧
    (wSession.current_question < wSession.total_questions →
      (handle_group_answer wSession "a" "Ana" "A" true true 1).current_question
        = wSession.current_question + 1 ∧
      (handle_group_answer wSession "a" "Ana" "A" true true 1).state
        = wSession.state) ∧
    (wSession.current_question < wSession.total_questions →
      (send_next_group_question wSession).current_question
        = wSession.current_question + 1 ∧
      (send_next_group_question wSession).state = GroupQuizState.ACTIVE) :=
  ⟨question_counter_c4.1 wSession "q9" (by decide),
   question_counter_c4.2.1 wSession "b" "Bia" "A" true true 1 (by decide),
   question_counter_c4.2.2.1 wSession (by decide),
   question_counter_c4.2.2.2.1 wSession "c" "Caio" (by decide) (by decide),
   (question_counter_c4.2.2.2.2.1 wSession "a" "Ana" "A" true 1 "q1" 0 rfl rfl
     (by decide) rfl).2,
   (question_counter_c4.2.2.2.2.2 wSession "q1" rfl).2⟩

/-!
Claim C2: turn order versus the participant set.
-/

namespace GroupQuizSession

theorem calculate_participants (s : GroupQuizSession) :
    (s.calculate_initial_questions).participants = s.participants := rfl

theorem calculate_turn_order (s : GroupQuizSession) :
    (s.calculate_initial_questions).turn_order = s.turn_order := rfl

theorem calculate_current_turn (s : GroupQuizSession) :
    (s.calculate_initial_questions).current_turn_user_id = s.current_turn_user_id := rfl

end GroupQuizSession

theorem send_next_frame (s : GroupQuizSession) :
    (send_next_group_question s).participants = s.participants ∧
    (send_next_group_question s).turn_order = s.turn_order := by
  unfold send_next_group_question
  by_cases hqz : s.quiz_id.isNone
  · rw [if_pos hqz]; exact ⟨rfl, rfl⟩
  · rw [if_neg hqz]
    by_cases hfin : (s.advance_turn).2.current_question ≥ (s.advance_turn).2.total_questions
    · rw [if_pos hfin]
      exact ⟨GroupQuizSession.advance_turn_participants s,
             GroupQuizSession.advance_turn_turn_order s⟩
    · rw [if_neg hfin]
      dsimp only
      constructor
      · rw [GroupQuizSession.start_new_question_participants,
          GroupQuizSession.advance_turn_participants]
      · rw [GroupQuizSession.start_new_question_turn_order,
          GroupQuizSession.advance_turn_turn_order]

/-- Claim C2 counterexample: in the concrete ACTIVE session `wSession` the
turn order equals the participant ids; after participant "b" leaves via
SAIR the session is still ACTIVE, the participant ids are ["a"], but the
turn order is still ["a", "b"] — not a permutation of the participant id
set, refuting the claimed invariant. -/
theorem turn_order_counterexample_c2 :
    wSession.state = GroupQuizState.ACTIVE ∧
    wSession.turn_order = wSession.participants.map Prod.fst ∧
    (sair_command wSession "b").state = GroupQuizState.ACTIVE ∧
    (sair_command wSession "b").participants.map Prod.fst = ["a"] ∧
    (sair_command wSession "b").turn_order = ["a", "b"] ∧
    ¬ List.Perm ((sair_command wSession "b").turn_order)
        ((sair_command wSession "b").participants.map Prod.fst) := by
  refine ⟨rfl, rfl, rfl, by decide, rfl, ?_⟩
  intro hperm
  have hlen := hperm.length_eq
  revert hlen
  decide

/-- Claim C2 (amended): when the game begins (COMECAR with a non-empty
lobby), turn_order is exactly the participant id list — a permutation of the
participant id set — and the current-turn pointer is its first element.
Thereafter the operations preserve the weaker invariant `turn_covers`: every
participant id is in turn_order.  A participant leaving (SAIR or group-leave)
removes them only from the participant map, leaving turn_order and the
pointer unchanged, so turn_order may retain departed ids and is then no
longer a permutation.  For an answer the preservation additionally assumes
the current-turn pointer refers to a registered participant or to a member
of turn_order. -/
theorem turn_order_amended_c2 :
    (∀ (s : GroupQuizSession) (qid : String), s.participants ≠ [] →
      (comecar_command s qid true true).turn_order = s.participants.map Prod.fst ∧
      (comecar_command s qid true true).current_turn_user_id
        = (s.participants.map Prod.fst).head?) ∧
    (∀ (s : GroupQuizSession) (uid : String), turn_covers s →
      turn_covers (sair_command s uid) ∧
      (sair_command s uid).turn_order = s.turn_order ∧
      (sair_command s uid).current_turn_user_id = s.current_turn_user_id) ∧
    (∀ (s : GroupQuizSession) (uid : String), turn_covers s →
      turn_covers (auto_remove_from_quiz s uid)) ∧
    (∀ (s : GroupQuizSession) (uid uname : String), turn_covers s →
      turn_covers (process_check_in s uid uname)) ∧
    (∀ s : GroupQuizSession, turn_covers s →
      turn_covers (send_next_group_question s)) ∧
    (∀ (s : GroupQuizSession) (uid uname ans : String) (f c : Bool) (p : Nat),
      turn_covers s →
      (∀ u, s.current_turn_user_id = some u →
        u ∈ s.turn_order ∨ (plookup u s.participants).isSome) →
      turn_covers (handle_group_answer s uid uname ans f c p)) := by
  refine ⟨?_, ?_, ?_, ?_, ?_, ?_⟩
  · -- establishment at begin
    intro s qid h
    unfold comecar_command
    have hlen : ¬ (s.participants.length = 0) := by
      intro h0
      exact h (List.length_eq_zero.mp h0)
    rw [if_neg hlen, if_neg (by simp), if_neg (by simp)]
    constructor
    · rw [GroupQuizSession.start_new_question_turn_order]
      show ((s.calculate_initial_questions).initialize_turn_order).turn_order
        = s.participants.map Prod.fst
      rw [GroupQuizSession.initialize_turn_order_turn_order,
          GroupQuizSession.calculate_participants]
    · rw [GroupQuizSession.start_new_question_current_turn]
      show ((s.calculate_initial_questions).initialize_turn_order).current_turn_user_id
        = (s.participants.map Prod.fst).head?
      cases hk : s.participants.map Prod.fst with
      | nil => exact absurd (List.map_eq_nil_iff.mp hk) h
      | cons u rest =>
          have hk2 : (s.calculate_initial_questions).participants.map Prod.fst
              = u :: rest := by
            rw [GroupQuizSession.calculate_participants, hk]
          rw [GroupQuizSession.initialize_turn_order_current_turn _ u rest hk2]
          rfl
  · -- SAIR
    intro s uid hcov
    unfold sair_command
    by_cases hmem : (plookup uid s.participants).isSome
    · rw [if_pos hmem]
      refine ⟨?_, rfl, rfl⟩
      intro u hu
      exact hcov u (mem_map_fst_of_mem_perase uid u s.participants hu)
    · rw [if_neg hmem]
      exact ⟨hcov, rfl, rfl⟩
  · -- group-leave
    intro s uid hcov
    unfold auto_remove_from_quiz
    by_cases hidle : s.state = GroupQuizState.IDLE
    · rw [if_pos hidle]; exact hcov
    · rw [if_neg hidle]
      by_cases hmem : (plookup uid s.participants).isSome
      · rw [if_pos hmem]
        intro u hu
        exact hcov u (mem_map_fst_of_mem_perase uid u s.participants hu)
      · rw [if_neg hmem]; exact hcov
  · -- mid-game check-in
    intro s uid uname hcov
    unfold process_check_in
    by_cases h1 : (uid = BOT_NUMBER ∨ uid.startsWith BOT_NUMBER)
    · rw [if_pos h1]; exact hcov
    · rw [if_neg h1]
      by_cases h2 : s.state = GroupQuizState.ACTIVE ∧
          plookup uid s.participants = none ∧
          uid ≠ "" ∧ ¬ uid.endsWith "@g.us" = true ∧
          s.started_by ≠ some uid
      · rw [if_pos h2]
        intro u hu
        rw [GroupQuizSession.add_bonus_participants,
            GroupQuizSession.add_part_participants,
            GroupQuizSession.get_or_create_keys, if_pos h2.2.1] at hu
        rw [GroupQuizSession.add_bonus_turn_order]
        rcases List.mem_append.mp hu with hold | hnew
        · have h3 : u ∈ (s.get_or_create_participant uid uname).turn_order := by
            rw [GroupQuizSession.get_or_create_turn_order]
            exact hcov u hold
          exact GroupQuizSession.subset_add_part_turn_order _ uid u h3
        · rw [List.mem_singleton.mp hnew]
          exact GroupQuizSession.mem_add_part_turn_order _ uid
      · rw [if_neg h2]; exact hcov
  · -- PROXIMA
    intro s hcov
    obtain ⟨hp, ht⟩ := send_next_frame s
    intro u hu
    rw [hp] at hu
    rw [ht]
    exact hcov u hu
  · -- answer
    intro s uid uname ans f c p hcov hcur
    unfold handle_group_answer
    by_cases hqz : s.quiz_id.isNone
    · rw [if_pos hqz]; exact hcov
    · rw [if_neg hqz]
      by_cases hturn : s.is_user_turn uid
      · rw [if_neg (not_not_intro hturn)]
        by_cases hhas : s.has_answered uid
        · rw [if_pos hhas]; exact hcov
        · rw [if_neg hhas]
          by_cases hf : f = true
          · subst hf
            rw [if_neg (by simp)]
            cases hai : letterIndex ans with
            | none => exact hcov
            | some ai =>
                dsimp only
                have hmem : uid ∈ s.turn_order ∨ (plookup uid s.participants).isSome :=
                  hcur uid hturn
                have hkeys : ((s.add_answer uid uname ai c p).advance_turn).2.participants.map
                      Prod.fst
                    = if plookup uid s.participants = none
                      then s.participants.map Prod.fst ++ [uid]
                      else s.participants.map Prod.fst := by
                  rw [GroupQuizSession.advance_turn_participants,
                      GroupQuizSession.add_answer_keys]
                have hturnord : ((s.add_answer uid uname ai c p).advance_turn).2.turn_order
                    = s.turn_order := by
                  rw [GroupQuizSession.advance_turn_turn_order,
                      GroupQuizSession.add_answer_turn_order]
                have hcov2 : turn_covers ((s.add_answer uid uname ai c p).advance_turn).2 := by
                  intro u hu
                  rw [hkeys] at hu
                  rw [hturnord]
                  by_cases hl : plookup uid s.participants = none
                  · rw [if_pos hl] at hu
                    rcases List.mem_append.mp hu with hold | hnew
                    · exact hcov u hold
                    · rw [List.mem_singleton.mp hnew]
                      rcases hmem with hmem | hmem
                      · exact hmem
                      · rw [hl] at hmem; exact absurd hmem (by simp)
                  · rw [if_neg hl] at hu
                    exact hcov u hu
                by_cases hfin : ((s.add_answer uid uname ai c p).advance_turn).2.current_question
                    ≥ ((s.add_answer uid uname ai c p).advance_turn).2.total_questions
                · rw [if_pos hfin]
                  intro u hu
                  exact hcov2 u hu
                · rw [if_neg hfin]
                  intro u hu
                  rw [GroupQuizSession.start_new_question_participants] at hu
                  rw [GroupQuizSession.start_new_question_turn_order]
                  exact hcov2 u hu
          · rw [if_pos hf]; exact hcov
      · rw [if_pos hturn]
        cases hdisp : s.get_current_turn_display with
        | some v => exact hcov
        | none =>
            dsimp only
            rw [GroupQuizSession.initialize_turn_order_turn_order]
            cases hk : s.participants.map Prod.fst with
            | nil =>
                dsimp only
                intro u hu
                rw [GroupQuizSession.initialize_turn_order_participants, hk] at hu
                exact absurd hu (List.not_mem_nil u)
            | cons u2 rest =>
                dsimp only
                intro u hu
                rw [GroupQuizSession.initialize_turn_order_participants, hk] at hu
                exact hu

/-- Claim C2 (amended) witness: the amended clauses evaluated on the concrete
session `wSession`: begin makes turn_order the participant list, and the
coverage invariant survives a leave, a group-leave, a check-in, a PROXIMA and
an accepted answer. -/
theorem turn_order_amended_c2_witness :
    ((comecar_command wSession "q9" true true).turn_order
        = wSession.participants.map Prod.fst ∧
     (comecar_command wSession "q9" true true).current_turn_user_id
        = (wSession.participants.map Prod.fst).head?) ∧
    turn_covers (sair_command wSession "b") ∧
    turn_covers (auto_remove_from_quiz wSession "b") ∧
    turn_covers (process_check_in wSession "c" "Caio") ∧
    turn_covers (send_next_group_question wSession) ∧
    turn_covers (handle_group_answer wSession "a" "Ana" "A" true true 1) :=
  ⟨turn_order_amended_c2.1 wSession "q9" (by decide),
   (turn_order_amended_c2.2.1 wSession "b" (by decide)).1,
   turn_order_amended_c2.2.2.1 wSession "b" (by decide),
   turn_order_amended_c2.2.2.2.1 wSession "c" "Caio" (by decide),
   turn_order_amended_c2.2.2.2.2.1 wSession (by decide),
   turn_order_amended_c2.2.2.2.2.2 wSession "a" "Ana" "A" true true 1 (by decide)
     (by
       intro u hu
       injection hu with h2
       subst h2
       left
       decide)⟩

/-- Claim C10 witness: in the concrete session `wSession` (turn order
["a", "b"], pointer at "a") advance_turn moves the pointer to the cyclic
successor, a member of the turn order. -/
theorem advance_turn_spec_c10_witness :
    ∃ v, wSession.turn_order[(wSession.turn_order.indexOf "a" + 1)
          % wSession.turn_order.length]? = some v ∧
      wSession.advance_turn = (some v, { wSession with current_turn_user_id := some v }) ∧
      v ∈ wSession.turn_order :=
  ((advance_turn_spec_c10 wSession).2 "a" ["b"] rfl).2 "a" rfl (by decide)
